import Mathlib

/-!
Verification of the ETL normalization pipeline of the `diseases` repository.

The Python sources are shallowly embedded: a Python `str` is a list of
Unicode code points (`List Nat`), Python integers and `datetime` dates
are `Int` (dates by their proleptic-Gregorian ordinal).  Character
classes from the Python regexes (`\w`, `\s`, `[^a-z0-9]`) and
`str.lower`/`str.upper` are modelled over their ASCII fragment, which is
the alphabet the feeds and all spec examples use.  Missing values
(`None`, pandas `NaN`/`NaT`) are modelled with `Option`; uncaught Python
exceptions with `Except`.
-/

/-- Python `str` values are modelled as lists of Unicode code points. -/
abbrev Str := List Nat

/-- Shorthand to write string-literal test data as `Str`. -/
def str (x : String) : Str := x.data.map Char.toNat

/-- Python whitespace (`str.strip`, regex `\s`), ASCII fragment:
space, tab, newline, carriage return, vertical tab, form feed. -/
def isPySpace (c : Nat) : Bool :=
  c == 32 || c == 9 || c == 10 || c == 13 || c == 11 || c == 12

/-- ASCII decimal digit `0`-`9`. -/
def isDigitC (c : Nat) : Bool := decide (48 ≤ c ∧ c ≤ 57)

/-- ASCII lowercase letter `a`-`z`. -/
def isLowerC (c : Nat) : Bool := decide (97 ≤ c ∧ c ≤ 122)

/-- ASCII uppercase letter `A`-`Z`. -/
def isUpperC (c : Nat) : Bool := decide (65 ≤ c ∧ c ≤ 90)

/-- Regex `\w` (word character), ASCII fragment: alphanumeric or
underscore (code point 95). -/
def isWordChar (c : Nat) : Bool :=
  isUpperC c || isLowerC c || isDigitC c || c == 95

/-- `str.strip()`: drop whitespace from both ends. -/
def stripWS (l : Str) : Str :=
  ((l.dropWhile isPySpace).reverse.dropWhile isPySpace).reverse

/-- `str.strip("-")`: drop hyphens (code point 45) from both ends. -/
def stripHyphens (l : Str) : Str :=
  ((l.dropWhile (· == 45)).reverse.dropWhile (· == 45)).reverse

/-- Worker for `collapseRuns`; `inRun` records whether the previous
character was part of a `p`-run (already replaced). -/
def collapseRunsAux (p : Nat → Bool) (rep : Nat) : Bool → Str → Str
  | _, [] => []
  | inRun, c :: cs =>
    if p c then
      if inRun then collapseRunsAux p rep true cs
      else rep :: collapseRunsAux p rep true cs
    else c :: collapseRunsAux p rep false cs

/-- `re.sub(r"X+", rep, l)` for a character class `X`: replace every
maximal run of characters satisfying `p` by the single character `rep`. -/
def collapseRuns (p : Nat → Bool) (rep : Nat) (l : Str) : Str :=
  collapseRunsAux p rep false l

/-- Python `str.lower` on one character, ASCII fragment. -/
def toLowerC (c : Nat) : Nat := if 65 ≤ c ∧ c ≤ 90 then c + 32 else c

/-- Python `str.upper` on one character, ASCII fragment. -/
def toUpperC (c : Nat) : Nat := if 97 ≤ c ∧ c ≤ 122 then c - 32 else c

/-- Python `str.lower`, ASCII fragment. -/
def lowerL (l : Str) : Str := l.map toLowerC

/-- Python `str.upper`, ASCII fragment. -/
def upperL (l : Str) : Str := l.map toUpperC

/-- `app/etl/normalizers/slugify.py::slugify`, on an already-non-null string:
lowercase+strip, remove `[^\w\s-]`, replace `[\s_]+` runs with `-`,
collapse `-+` runs, strip edge hyphens; empty result becomes null. -/
def slugifyChars (l : Str) : Option Str :=
  let v := stripWS (lowerL l)
  let v := v.filter (fun c => isWordChar c || isPySpace c || c == 45)
  let v := collapseRuns (fun c => isPySpace c || c == 95) 45 v
  let v := collapseRuns (· == 45) 45 v
  let v := stripHyphens v
  if v = [] then none else some v

/-- `app/etl/normalizers/slugify.py::slugify` with its null guard
(`value is None or pd.isna(value)` returns `None`). -/
def slugify (value : Option Str) : Option Str :=
  match value with
  | none => none
  | some l => slugifyChars l

/-- `app/utils.py::to_disease_slug`: NFC-normalize (identity on ASCII),
lowercase, delete apostrophes, replace `[^a-z0-9]+` runs with `-`,
strip edge hyphens, collapse `-+` runs.  Total: returns a (possibly
empty) string, never null. -/
def to_disease_slug (name : Str) : Str :=
  let v := lowerL name
  let v := v.filter (· ≠ 39)
  let v := collapseRuns (fun c => !(isLowerC c || isDigitC c)) 45 v
  let v := stripHyphens v
  collapseRuns (· == 45) 45 v

/-- `app/etl/normalizers/geo.py::REGIONS` (regional aggregates). -/
def REGIONS : List Str :=
  [str "US RESIDENTS", str "NON-US RESIDENTS", str "TOTAL",
   str "NEW ENGLAND", str "MIDDLE ATLANTIC", str "EAST NORTH CENTRAL",
   str "WEST NORTH CENTRAL", str "SOUTH ATLANTIC", str "EAST SOUTH CENTRAL",
   str "WEST SOUTH CENTRAL", str "MOUNTAIN", str "PACIFIC",
   str "US TERRITORIES"]

/-- The national-level set inlined in `classify_geo_unit`. -/
def NATIONAL_AREAS : List Str :=
  [str "US RESIDENTS", str "NON-US RESIDENTS", str "TOTAL"]

/-- `app/etl/normalizers/geo.py::classify_geo_unit`: falsy input (null or
empty) is `"state"`; otherwise the input is UPPERCASED (no slugification)
and tested for exact membership in the national set, then in `REGIONS`;
anything else is `"state"`. -/
def classify_geo_unit (reporting_area : Option Str) : Str :=
  match reporting_area with
  | none => str "state"
  | some a =>
    if a = [] then str "state"
    else
      let u := upperL a
      if u ∈ NATIONAL_AREAS then str "national"
      else if u ∈ REGIONS then str "region"
      else str "state"

-- sanity checks against the source's own doctests / unit tests
example : slugify (some (str "Meningococcal disease")) =
    some (str "meningococcal-disease") := by decide
example : slugify (some (str "U.S. Residents")) = some (str "us-residents") := by decide
example : slugify (some (str "Serogroup B")) = some (str "serogroup-b") := by decide
example : to_disease_slug (str "Hansen's Disease") = str "hansens-disease" := by decide
example : to_disease_slug (str "Carbapenemase-Producing Organisms (CPO), Total") =
    str "carbapenemase-producing-organisms-cpo-total" := by decide
example : classify_geo_unit (some (str "US RESIDENTS")) = str "national" := by decide
example : classify_geo_unit (some (str "PACIFIC")) = str "region" := by decide
example : classify_geo_unit (some (str "California")) = str "state" := by decide

/-! ## MMWR week converter (`app/etl/transformers/nndss.py::MMWRWeekConverter`)

Python `datetime` dates are modelled by their proleptic-Gregorian ordinal
(`date.toordinal`: 0001-01-01 is ordinal 1), as `Int`.  `datetime.timedelta`
arithmetic on dates is exact ordinal arithmetic within `datetime`'s range. -/

/-- Gregorian leap-year test. -/
def isLeap (y : Int) : Bool :=
  (y % 4 == 0 && y % 100 != 0) || (y % 400 == 0)

/-- Days in years `1 .. y-1` (for `y ≥ 1`). -/
def daysBeforeYear (y : Int) : Int :=
  365 * (y - 1) + (y - 1) / 4 - (y - 1) / 100 + (y - 1) / 400

/-- Ordinal of January 1 of year `y` (`datetime(year, 1, 1).toordinal()`). -/
def janOrd (y : Int) : Int := daysBeforeYear y + 1

/-- Month lengths of year `y`. -/
def monthLengths (y : Int) : List Int :=
  [31, if isLeap y then 29 else 28, 31, 30, 31, 30, 31, 31, 30, 31, 30, 31]

/-- Ordinal of the calendar date `y-m-d` (`date(y, m, d).toordinal()`). -/
def toOrdinal (y : Int) (m d : Nat) : Int :=
  daysBeforeYear y + ((monthLengths y).take (m - 1)).foldl (· + ·) 0 + d

/-- Python `date.weekday()`: Monday = 0, …, Sunday = 6. -/
def pyWeekday (ord : Int) : Int := (ord + 6) % 7

/-- The `week1_start` computation inside
`MMWRWeekConverter.get_mmwr_week_start`: the first Sunday on or after
January 1, pushed one week later when `jan1.weekday() > 3`.
(Python's `weekday()` is Monday = 0, so the test `weekday() <= 3` is
true for Monday--Thursday, not for the Sunday--Wednesday its comment
names.) -/
def mmwr_week1_start (year : Int) : Int :=
  let jan1 := janOrd year
  let firstSunday := jan1 + (6 - pyWeekday jan1) % 7
  if pyWeekday jan1 ≤ 3 then firstSunday else firstSunday + 7

/-- `MMWRWeekConverter.get_mmwr_week_start(year, week)` (ordinal). -/
def get_mmwr_week_start (year week : Int) : Int :=
  mmwr_week1_start year + 7 * (week - 1)

/-- `MMWRWeekConverter.get_mmwr_week_end(year, week)` = start + 6 days. -/
def get_mmwr_week_end (year week : Int) : Int :=
  get_mmwr_week_start year week + 6

/-- Ordinal of 9999-12-31, `datetime.max`. -/
def MAX_ORDINAL : Int := 3652059

/-- `get_mmwr_week_start` as actually callable from Python: building
`timedelta(weeks=week-1)` raises `OverflowError` beyond ±999999999 days,
and date arithmetic leaving `[0001-01-01, 9999-12-31]` raises
`OverflowError` as well ( modelled as `.error`).  The two intermediate
sums (`first_sunday`, `+7`) stay in range for every year `1..9999`. -/
def mmwr_week_start_checked (year week : Int) : Except Unit Int :=
  if 7 * (week - 1) > 999999999 ∨ 7 * (week - 1) < -999999999 then .error ()
  else
    let t := get_mmwr_week_start year week
    if t < 1 ∨ MAX_ORDINAL < t then .error () else .ok t

/-- The per-(year, week) work of `NNDSSTransformer._parse_dates`: rows with
a missing year or week are dropped by `dropna()` and re-acquire a null
(`NaT`) period at the merge; `int(...)` of the remaining `Int64` values
always succeeds; `datetime(year, 1, 1)` raises `ValueError` outside
years 1..9999, which the `except (ValueError, TypeError)` catches into
`NaT`; an `OverflowError` from week arithmetic is NOT caught and
propagates out of `transform()` (modelled as `.error`). -/
def parse_year_week (year week : Option Int) : Except Unit (Option (Int × Int)) :=
  match year, week with
  | some y, some w =>
    if 1 ≤ y ∧ y ≤ 9999 then
      match mmwr_week_start_checked y w with
      | .error _ => .error ()
      | .ok s => if MAX_ORDINAL < s + 6 then .error () else .ok (some (s, s + 6))
    else .ok none
  | _, _ => .ok none

-- sanity checks: the repository's own test expectations for 2024
example : get_mmwr_week_start 2024 1 = toOrdinal 2024 1 7 := by decide
example : pyWeekday (get_mmwr_week_start 2024 1) = 6 := by decide
example : pyWeekday (get_mmwr_week_end 2024 1) = 5 := by decide
example : toOrdinal 9999 12 31 = MAX_ORDINAL := by decide

/-! ## NNDSS transformer (`app/etl/transformers/nndss.py::NNDSSTransformer`)

The dataframe pipeline inside `transform()` applies columnwise but
row-independent operations (`_parse_dates` computes per unique
`(year, week)` pair and merges back, which yields the same per-row
result), so it is modelled as a per-row function followed by the two
row filters.  File discovery and `read_csv` are I/O outside the model:
`transform` takes the parsed rows of the selected CSV. -/

/-- `nndss.py::NNDSS_TO_TRACKER_SLUG`. -/
def NNDSS_TO_TRACKER_SLUG : List (Str × Str) :=
  [(str "meningococcal-disease", str "meningococcus"),
   (str "measles", str "measles"),
   (str "pertussis", str "pertussis")]

/-- `nndss.py::AGGREGATE_SUBTYPES`. -/
def AGGREGATE_SUBTYPES : List Str :=
  [str "all serogroups", str "total", str "all", str "imported", str "indigenous"]

/-- `nndss.py::SUBTYPE_NORMALIZATION`. -/
def NNDSS_SUBTYPE_NORMALIZATION : List (Str × Str) :=
  [(str "other", str "unspecified"), (str "unknown", str "unknown")]

/-- `nndss.py::STATE_CODES` (also `geo.py::STATE_CODES`, same table). -/
def STATE_CODES : List (Str × Str) :=
  [(str "ALABAMA", str "AL"), (str "ALASKA", str "AK"), (str "ARIZONA", str "AZ"),
   (str "ARKANSAS", str "AR"), (str "CALIFORNIA", str "CA"), (str "COLORADO", str "CO"),
   (str "CONNECTICUT", str "CT"), (str "DELAWARE", str "DE"), (str "FLORIDA", str "FL"),
   (str "GEORGIA", str "GA"), (str "HAWAII", str "HI"), (str "IDAHO", str "ID"),
   (str "ILLINOIS", str "IL"), (str "INDIANA", str "IN"), (str "IOWA", str "IA"),
   (str "KANSAS", str "KS"), (str "KENTUCKY", str "KY"), (str "LOUISIANA", str "LA"),
   (str "MAINE", str "ME"), (str "MARYLAND", str "MD"), (str "MASSACHUSETTS", str "MA"),
   (str "MICHIGAN", str "MI"), (str "MINNESOTA", str "MN"), (str "MISSISSIPPI", str "MS"),
   (str "MISSOURI", str "MO"), (str "MONTANA", str "MT"), (str "NEBRASKA", str "NE"),
   (str "NEVADA", str "NV"), (str "NEW HAMPSHIRE", str "NH"), (str "NEW JERSEY", str "NJ"),
   (str "NEW MEXICO", str "NM"), (str "NEW YORK", str "NY"), (str "NEW YORK CITY", str "NYC"),
   (str "NORTH CAROLINA", str "NC"), (str "NORTH DAKOTA", str "ND"), (str "OHIO", str "OH"),
   (str "OKLAHOMA", str "OK"), (str "OREGON", str "OR"), (str "PENNSYLVANIA", str "PA"),
   (str "RHODE ISLAND", str "RI"), (str "SOUTH CAROLINA", str "SC"),
   (str "SOUTH DAKOTA", str "SD"), (str "TENNESSEE", str "TN"), (str "TEXAS", str "TX"),
   (str "UTAH", str "UT"), (str "VERMONT", str "VT"), (str "VIRGINIA", str "VA"),
   (str "WASHINGTON", str "WA"), (str "WEST VIRGINIA", str "WV"),
   (str "WISCONSIN", str "WI"), (str "WYOMING", str "WY"),
   (str "DISTRICT OF COLUMBIA", str "DC"), (str "AMERICAN SAMOA", str "AS"),
   (str "GUAM", str "GU"), (str "NORTHERN MARIANA ISLANDS", str "MP"),
   (str "PUERTO RICO", str "PR"), (str "VIRGIN ISLANDS", str "VI")]

/-- The `re.sub(r"\s*serogroups?\s*$", "", _, flags=IGNORECASE)` step of
`_parse_nndss_label`: if the string ends (case-insensitively, after
optional trailing whitespace) in `serogroups` or `serogroup`, remove that
suffix together with the surrounding whitespace; otherwise leave the
string unchanged. -/
def stripSerogroupSuffix (l : Str) : Str :=
  let r := l.reverse
  let r1 := r.dropWhile isPySpace
  if (str "serogroups").reverse.isPrefixOf (lowerL r1) then
    ((r1.drop 10).dropWhile isPySpace).reverse
  else if (str "serogroup").reverse.isPrefixOf (lowerL r1) then
    ((r1.drop 9).dropWhile isPySpace).reverse
  else l

/-- `NNDSSTransformer._parse_nndss_label`: split on the first comma into
(base, raw subtype); empty or aggregate subtype becomes null; otherwise
strip a `serogroup(s) ` prefix (`SUBTYPE_PREFIXES`, checked on the
lowercase text, removed from the original), strip a `serogroup(s)`
suffix, normalize through `SUBTYPE_NORMALIZATION`, and null out an empty
remainder. -/
def parse_nndss_label (label : Option Str) : Option Str × Option Str :=
  match label with
  | none => (none, none)
  | some l0 =>
    let l := stripWS l0
    if 44 ∈ l then
      let base := stripWS (l.takeWhile (· ≠ 44))
      let rest := stripWS ((l.dropWhile (· ≠ 44)).drop 1)
      if rest = [] then (some base, none)
      else if lowerL rest ∈ AGGREGATE_SUBTYPES then (some base, none)
      else
        let r1 :=
          if (str "serogroup ").isPrefixOf (lowerL rest) then rest.drop 10
          else if (str "serogroups ").isPrefixOf (lowerL rest) then rest.drop 11
          else rest
        let r2 := stripWS (stripSerogroupSuffix r1)
        let r3 := (List.lookup (lowerL r2) NNDSS_SUBTYPE_NORMALIZATION).getD r2
        (some base, if r3 = [] then none else some r3)
    else (some l, none)

/-- Digit string to number (`pd.to_numeric` on a digits-only string). -/
def natOfDigits (l : Str) : Nat :=
  l.foldl (fun a c => 10 * a + (c - 48)) 0

/-- `NNDSSTransformer._clean_case_counts`, per cell: a missing value
renders as `"nan"` under `astype(str)` and is replaced by `""`; the
placeholder cells `"nan"`, `"-"`, `""`, `" "` become `""`; all non-digit
characters are stripped (`re \D`); an empty remainder becomes null,
otherwise the digit string is parsed as a (necessarily non-negative)
integer. -/
def clean_count (currentWeek : Option Str) : Option Int :=
  match currentWeek with
  | none => none
  | some s0 =>
    let s1 := if s0 = str "nan" ∨ s0 = str "-" ∨ s0 = [] ∨ s0 = str " " then [] else s0
    let digits := s1.filter isDigitC
    if digits = [] then none else some (Int.ofNat (natOfDigits digits))

/-- `NNDSSTransformer._create_state_codes`, per row: default to the
reporting area; state rows map the uppercased name through `STATE_CODES`
with fallback to the reporting area; region rows use `LOCATION2` with
fallback to the reporting area; national rows get `"US"`. -/
def create_state_code (geoUnit : Str) (reportingArea location2 : Option Str) :
    Option Str :=
  if geoUnit = str "state" then
    match reportingArea with
    | none => none
    | some a => some ((List.lookup (upperL a) STATE_CODES).getD a)
  else if geoUnit = str "region" then
    match location2 with
    | some l2 => some l2
    | none => reportingArea
  else if geoUnit = str "national" then some (str "US")
  else reportingArea

/-- One raw row of the NNDSS weekly CSV (the columns `transform()` reads,
with `read_csv` dtypes `str`/`Int64`; missing cells are `none`). -/
structure NNDSSRow where
  reportingArea : Option Str
  mmwrYear : Option Int
  mmwrWeek : Option Int
  label : Option Str
  currentWeek : Option Str
  location2 : Option Str
deriving DecidableEq, Repr

/-- One row of the unified `disease_data` schema (`app/etl/schema.py`
`REQUIRED_COLUMNS`; the transformers' extra `*_slug` helper columns are
dropped by `_select_columns` and are not modelled). -/
structure UnifiedRow where
  report_period_start : Option Int
  report_period_end : Option Int
  date_type : Option Str
  time_unit : Option Str
  disease_name : Option Str
  disease_slug : Option Str
  disease_subtype : Option Str
  reporting_jurisdiction : Option Str
  state : Option Str
  geo_name : Option Str
  geo_unit : Option Str
  age_group : Option Str
  confirmation_status : Option Str
  outcome : Option Str
  count : Option Int
  data_source : Option Str
  original_disease_name : Option Str
deriving DecidableEq, Repr

/-- `NNDSSTransformer._map_to_unified_schema` (plus the upstream per-row
column computations `_classify_geo_unit`, `_normalize_disease_names`,
`_clean_case_counts`, `_create_state_codes`), given the row's already
computed report period. -/
def nndss_unified_row (r : NNDSSRow) (period : Option (Int × Int)) : UnifiedRow :=
  let gu := classify_geo_unit r.reportingArea
  let parsed := parse_nndss_label r.label
  let ds : Option Str :=
    match slugify parsed.1 with
    | none => none
    | some s => some ((List.lookup s NNDSS_TO_TRACKER_SLUG).getD s)
  let st := create_state_code gu r.reportingArea r.location2
  { report_period_start := period.map (·.1)
    report_period_end := period.map (·.2)
    date_type := some (str "mmwr")
    time_unit := some (str "week")
    disease_name := ds
    disease_slug := ds
    disease_subtype := parsed.2
    reporting_jurisdiction := st
    state := st
    geo_name := r.reportingArea
    geo_unit := some gu
    age_group := none
    confirmation_status := none
    outcome := some (str "cases")
    count := clean_count r.currentWeek
    data_source := none
    original_disease_name := r.label }

/-- One NNDSS row through the transform pipeline; `.error` is an uncaught
`OverflowError` from `_parse_dates`. -/
def nndss_transform_row (r : NNDSSRow) : Except Unit UnifiedRow :=
  (parse_year_week r.mmwrYear r.mmwrWeek).map (nndss_unified_row r)

/-- `NNDSSTransformer.transform()` on the parsed rows of the selected CSV:
map every row to the unified schema, then
`df = df[df["count"].notna()]` and `df = df[df["geo_unit"] == "state"]`. -/
def nndss_transform (rows : List NNDSSRow) : Except Unit (List UnifiedRow) := do
  let us ← rows.mapM nndss_transform_row
  let us := us.filter (fun u => u.count.isSome)
  pure (us.filter (fun u => u.geo_unit == some (str "state")))

-- sanity checks: the docstring examples of `_parse_nndss_label`
example : parse_nndss_label (some (str "Pertussis")) = (some (str "Pertussis"), none) := by
  decide
example : parse_nndss_label (some (str "Measles, Imported")) =
    (some (str "Measles"), none) := by decide
example : parse_nndss_label (some (str "Meningococcal disease, Serogroup B")) =
    (some (str "Meningococcal disease"), some (str "B")) := by decide
example : parse_nndss_label (some (str "Meningococcal disease, Other serogroups")) =
    (some (str "Meningococcal disease"), some (str "unspecified")) := by decide
example : clean_count (some (str "12")) = some 12 := by decide
example : clean_count (some (str "-")) = none := by decide
example : clean_count (some (str "N")) = none := by decide

/-! ## Tracker transformer (`app/etl/transformers/tracker.py::TrackerTransformer`)

File discovery and `read_csv` are I/O outside the model: the filesystem
is given as an association of file path to parsed rows.  `df.get(col,
default)` column-absence defaulting and `_normalize_columns` column
synthesis act frame-wide on whole columns; they are modelled row-wise
with `none` standing for an absent cell of an absent column. -/

/-- `tracker.py::SUBTYPE_NORMALIZATION`. -/
def TRACKER_SUBTYPE_NORMALIZATION : List (Str × Str) :=
  [(str "other", str "unspecified"), (str "na", str "unspecified"),
   (str "not specified", str "unspecified"), (str "n/a", str "unspecified")]

/-- `TrackerTransformer._clean_nullable`, per cell: a value whose
lowercased, stripped form is a placeholder becomes null. -/
def clean_nullable (x : Option Str) : Option Str :=
  match x with
  | none => none
  | some v =>
    if stripWS (lowerL v) ∈
        [str "not specified", str "unknown", str "n/a", str "na", str ""] then none
    else some v

/-- `TrackerTransformer._normalize_subtype`, per cell: null/blank becomes
null; otherwise look up the lowercased, stripped value in the
normalization table, keeping the original value when unmapped. -/
def normalize_subtype (x : Option Str) : Option Str :=
  match x with
  | none => none
  | some v =>
    if stripWS v = [] then none
    else some ((List.lookup (stripWS (lowerL v)) TRACKER_SUBTYPE_NORMALIZATION).getD v)

/-- One raw row of a tracker state CSV (columns `transform()` reads;
`none` models a missing cell / absent column). -/
structure TrackerRow where
  report_period_start : Option Int
  report_period_end : Option Int
  date_type : Option Str
  time_unit : Option Str
  disease_name : Option Str
  disease_subtype : Option Str
  reporting_jurisdiction : Option Str
  state : Option Str
  geo_name : Option Str
  geo_unit : Option Str
  age_group : Option Str
  confirmation_status : Option Str
  outcome : Option Str
  count : Option Int
deriving DecidableEq, Repr

/-- `TrackerTransformer._normalize_columns`, row-wise: synthesize whichever
of `state` / `reporting_jurisdiction` is missing as a copy of the other. -/
def normalize_columns (r : TrackerRow) : TrackerRow :=
  if r.reporting_jurisdiction.isSome ∧ r.state = none then
    { r with state := r.reporting_jurisdiction }
  else if r.state.isSome ∧ r.reporting_jurisdiction = none then
    { r with reporting_jurisdiction := r.state }
  else r

/-- `TrackerTransformer._map_to_unified_schema` (with
`_normalize_disease_names` storing the original name), per row.  Note
`count` is passed through unchanged — no parsing, dropping or sign
check happens on the tracker side. -/
def tracker_map_row (r : TrackerRow) : UnifiedRow :=
  { report_period_start := r.report_period_start
    report_period_end := r.report_period_end
    date_type := some (r.date_type.getD (str "cccd"))
    time_unit := some (r.time_unit.getD (str "month"))
    disease_name := r.disease_name
    disease_slug := slugify r.disease_name
    disease_subtype := normalize_subtype r.disease_subtype
    reporting_jurisdiction := r.reporting_jurisdiction.orElse (fun _ => r.state)
    state := r.state
    geo_name := r.geo_name.orElse (fun _ => r.state)
    geo_unit := some (r.geo_unit.getD (str "state"))
    age_group := clean_nullable r.age_group
    confirmation_status := clean_nullable r.confirmation_status
    outcome := some (r.outcome.getD (str "cases"))
    count := r.count
    data_source := none
    original_disease_name := r.disease_name }

/-- `csv_file.replace("\\", "/")` (code points 92, 47). -/
def replaceBackslashes (l : Str) : Str :=
  l.map (fun c => if c == 92 then 47 else c)

/-- Python `"…".split("/")` (on an already slash-normalized path). -/
def splitSlash : Str → List Str
  | [] => [[]]
  | c :: t =>
    match splitSlash t with
    | [] => [[c]]
    | h :: r => if c == 47 then [] :: h :: r else (c :: h) :: r

/-- `path.replace("\\", "/").split("/")`. -/
def pathParts (p : Str) : List Str := splitSlash (replaceBackslashes p)

/-- `f.split("/")[-1]`: the filename component. -/
def basenameOf (p : Str) : Str := (pathParts p).getLastD []

/-- `parts[-2]` when the path has at least two components: the parent
directory, used as the state key by `_select_latest_per_state`. -/
def stateKeyOf (p : Str) : Option Str :=
  let parts := pathParts p
  if 2 ≤ parts.length then parts[parts.length - 2]? else none

/-- Python `<` on strings: lexicographic by code point. -/
def listLt : Str → Str → Bool
  | [], [] => false
  | [], _ :: _ => true
  | _ :: _, [] => false
  | a :: as, b :: bs =>
    if a < b then true
    else if b < a then false
    else listLt as bs

/-- `sorted(state_files, key=lambda f: f.split("/")[-1], reverse=True)[0]`:
the first file, in original order, whose basename is maximal (Python's
sort is stable, so `reverse=True` keeps the earliest among equal keys
first). -/
def latest_for_state (files : List Str) (s : Str) : Option Str :=
  match files.filter (fun f => stateKeyOf f == some s) with
  | [] => none
  | h :: t =>
    some (t.foldl (fun best f => if listLt (basenameOf best) (basenameOf f) then f else best) h)

/-- The state keys in first-appearance order (`defaultdict` insertion
order, which drives the iteration in `_select_latest_per_state`). -/
def statesOf (files : List Str) : List Str :=
  (files.filterMap stateKeyOf).foldl (fun acc s => if s ∈ acc then acc else acc ++ [s]) []

/-- `TrackerTransformer._select_latest_per_state`. -/
def select_latest_per_state (files : List Str) : List Str :=
  (statesOf files).filterMap (latest_for_state files)

/-- `TrackerTransformer.transform()` over a filesystem given as path ↦
parsed rows: select the latest file per state, concatenate their rows,
and apply the column normalizations and the unified-schema mapping. -/
def tracker_transform (files : List (Str × List TrackerRow)) : List UnifiedRow :=
  let selected := select_latest_per_state (files.map (·.1))
  let allRows := (selected.filterMap (fun p => List.lookup p files)).flatten
  allRows.map (fun r => tracker_map_row (normalize_columns r))

/-! ## Pipeline template (`app/etl/base.py::DataSourceTransformer.load`)
and schema validation (`app/etl/schema.py`). -/

/-- `app/etl/normalizers/disease_names.py::DISEASE_ALIASES`. -/
def DISEASE_ALIASES : List (Str × Str) :=
  [(str "Hansen's Disease", str "Leprosy (Hansen's Disease)")]

/-- `apply_disease_aliases` (`Series.replace`: exact full-value match). -/
def apply_disease_aliases_row (u : UnifiedRow) : UnifiedRow :=
  { u with disease_name :=
      match u.disease_name with
      | none => none
      | some n => some ((List.lookup n DISEASE_ALIASES).getD n) }

/-- `DataSourceTransformer._generate_slugs`: regenerate `disease_slug`
from `disease_name` with `app/utils.py::to_disease_slug`, overwriting
whatever the transformer set. -/
def generate_slugs_row (u : UnifiedRow) : UnifiedRow :=
  { u with disease_slug := u.disease_name.map to_disease_slug }

/-- `DataSourceTransformer._tag_data_source`. -/
def tag_data_source_row (src : Str) (u : UnifiedRow) : UnifiedRow :=
  { u with data_source := some src }

/-- The per-row null check of `schema.py::validate_dataframe`: every
column of `REQUIRED_NON_NULL` (= `REQUIRED_COLUMNS` minus the nullable
`disease_subtype`, `age_group`, `confirmation_status`, `count`) must be
non-null.  All 17 schema columns are structurally present, so the
missing-column check never fires in the model. -/
def validate_row (u : UnifiedRow) : Bool :=
  u.report_period_start.isSome && u.report_period_end.isSome &&
  u.date_type.isSome && u.time_unit.isSome && u.disease_name.isSome &&
  u.disease_slug.isSome && u.reporting_jurisdiction.isSome && u.state.isSome &&
  u.geo_name.isSome && u.geo_unit.isSome && u.outcome.isSome &&
  u.data_source.isSome && u.original_disease_name.isSome

/-- `DataSourceTransformer.load()` on the transformer's result: empty
results pass through; otherwise apply aliases, regenerate slugs, tag the
source, and validate, raising `ValueError` (`.error`) when any required
column holds a null.  `_select_columns` is the identity on the modelled
17-column rows. -/
def load (src : Str) (transformed : List UnifiedRow) : Except Str (List UnifiedRow) :=
  if transformed = [] then .ok []
  else
    let rows := transformed.map
      (fun u => tag_data_source_row src (generate_slugs_row (apply_disease_aliases_row u)))
    if rows.all validate_row then .ok rows
    else .error (str "Schema validation failed")

/-! ## Concrete fixtures (mirroring the repository's test fixtures). -/

deriving instance DecidableEq for Except

/-- Tracker fixture row: state `ID`, disease `measles`, count 5
(the spec's end-to-end scenario, snapshot of 2025-11-01). -/
def trackerRow5 : TrackerRow :=
  { report_period_start := some (toOrdinal 2025 10 1)
    report_period_end := some (toOrdinal 2025 10 31)
    date_type := none
    time_unit := none
    disease_name := some (str "measles")
    disease_subtype := none
    reporting_jurisdiction := some (str "ID")
    state := some (str "ID")
    geo_name := none
    geo_unit := none
    age_group := some (str "0-4")
    confirmation_status := none
    outcome := none
    count := some 5 }

/-- The same tracker row as uploaded in the later snapshot: count 10. -/
def trackerRow10 : TrackerRow := { trackerRow5 with count := some 10 }

/-- A tracker row whose count cell is missing/unparseable (`NaN`). -/
def nullCountTrackerRow : TrackerRow := { trackerRow5 with count := none }

/-- Earlier tracker snapshot file for state `ID`. -/
def trackerFileA : Str := str "root/data/states/ID/20251101-000000_ID_alice.csv"

/-- Later tracker snapshot file for state `ID` (lexicographically greater
basename). -/
def trackerFileB : Str := str "root/data/states/ID/20251107-000000_ID_bob.csv"

/-- NNDSS fixture row: Massachusetts, 2022 week 1, `"Measles, Imported"`,
count 5. -/
def measlesNNDSSRow : NNDSSRow :=
  { reportingArea := some (str "MASSACHUSETTS")
    mmwrYear := some 2022
    mmwrWeek := some 1
    label := some (str "Measles, Imported")
    currentWeek := some (str "5")
    location2 := none }

/-- NNDSS fixture row: `"Meningococcal disease, Serogroup B"`. -/
def meningBNNDSSRow : NNDSSRow :=
  { measlesNNDSSRow with label := some (str "Meningococcal disease, Serogroup B") }

/-- NNDSS fixture row: `"Meningococcal disease, All serogroups"`. -/
def meningAllNNDSSRow : NNDSSRow :=
  { measlesNNDSSRow with label := some (str "Meningococcal disease, All serogroups") }

/-- NNDSS fixture row: national aggregate (`US RESIDENTS`). -/
def usResidentsNNDSSRow : NNDSSRow :=
  { measlesNNDSSRow with reportingArea := some (str "US RESIDENTS"),
                         currentWeek := some (str "3") }

/-- Input rows for the NNDSS transform fixtures: one state row, one
national aggregate. -/
def nndssFixtureRows : List NNDSSRow := [measlesNNDSSRow, usResidentsNNDSSRow]

/-- Expected `transform()` output on `nndssFixtureRows`: only the state
row survives the `geo_unit == "state"` filter. -/
def nndssFixtureOut : List UnifiedRow :=
  [nndss_unified_row measlesNNDSSRow (some (toOrdinal 2022 1 9, toOrdinal 2022 1 15))]

/-- Expected `load()` output on the transformed `trackerRow5`. -/
def trackerLoadedRow : UnifiedRow :=
  tag_data_source_row (str "tracker")
    (generate_slugs_row (apply_disease_aliases_row
      (tracker_map_row (normalize_columns trackerRow5))))

/-- Expected `load()` output when the source row has a null count. -/
def nullCountLoadedRow : UnifiedRow :=
  tag_data_source_row (str "tracker")
    (generate_slugs_row (apply_disease_aliases_row
      (tracker_map_row (normalize_columns nullCountTrackerRow))))

/-- The character alphabet of a produced slug: ASCII lowercase letters,
digits, and the hyphen. -/
def goodSlugChar (c : Nat) : Bool := isLowerC c || isDigitC c || c == 45

/-- "No repeated hyphens": no two adjacent characters are both `-`. -/
def NoHH (l : Str) : Prop := List.Chain' (fun a b => ¬(a = 45 ∧ b = 45)) l

/-! ## Claim theorems. -/

/-- C1 (code bug, evaluation at the failing input): for year 2022 week 1
the code returns the period January 9 – January 15, 2022, not the
January 2 – January 8 range the claim requires.  January 1, 2022 falls
on a Saturday (`weekday() = 5`), and the code's branch test
`jan1.weekday() <= 3` is true for Monday–Thursday — not the
Sunday–Wednesday set named in its own comment — so week 1 is wrongly
pushed one week later. -/
theorem mmwr_week1_2022_evaluation :
    get_mmwr_week_start 2022 1 = toOrdinal 2022 1 9 ∧
    get_mmwr_week_end 2022 1 = toOrdinal 2022 1 15 ∧
    get_mmwr_week_start 2022 1 ≠ toOrdinal 2022 1 2 ∧
    pyWeekday (janOrd 2022) = 5 := by decide

/-- C2 (counterexample): `classify_geo_unit` does not slugify its input —
it uppercases it and tests exact membership — so the punctuation
variants `"U.S. Residents"` and `"U.S.Residents"` classify as
`"state"`, not `"national"` as the claim asserts. -/
theorem classify_geo_unit_counterexample :
    classify_geo_unit (some (str "U.S. Residents")) = str "state" ∧
    classify_geo_unit (some (str "U.S. Residents")) ≠ str "national" ∧
    classify_geo_unit (some (str "U.S.Residents")) ≠ str "national" := by decide

/-- C2 (amended): `classify_geo_unit` uppercases its input (it does not
slugify), so it is robust to casing but not punctuation: `"us
residents"` and `"US RESIDENTS"` classify as `"national"`, `"Pacific"`
as `"region"`, `"California"` as `"state"`, and any input whose
uppercased form lies in neither fixed set classifies as `"state"`. -/
theorem classify_geo_unit_amended :
    classify_geo_unit (some (str "us residents")) = str "national" ∧
    classify_geo_unit (some (str "US RESIDENTS")) = str "national" ∧
    classify_geo_unit (some (str "Pacific")) = str "region" ∧
    classify_geo_unit (some (str "California")) = str "state" ∧
    ∀ a : Str, upperL a ∉ NATIONAL_AREAS → upperL a ∉ REGIONS →
      classify_geo_unit (some a) = str "state" := by
  refine ⟨by decide, by decide, by decide, by decide, ?_⟩
  intro a h1 h2
  simp only [classify_geo_unit]
  by_cases ha : a = []
  · simp [ha]
  · simp [ha, h1, h2]

/-- C2 (witness): the amended default-to-state clause at a concrete
input. -/
theorem classify_geo_unit_amended_witness :
    classify_geo_unit (some (str "Connecticut")) = str "state" :=
  classify_geo_unit_amended.2.2.2.2 (str "Connecticut") (by decide) (by decide)

/-- C5 (confirmed): tracker and NNDSS naming converge.  A tracker row
named `"measles"` maps to `disease_slug = "measles"`; the NNDSS label
`"Measles, Imported"` parses to base `"Measles"` with the aggregate
subtype `"Imported"` discarded and also maps to `disease_slug =
"measles"`; `"Meningococcal disease, Serogroup B"` maps through
`NNDSS_TO_TRACKER_SLUG` to `disease_slug = "meningococcus"` with
subtype `"B"` (serogroup prefix stripped); `", All serogroups"` yields
a null subtype. -/
theorem cross_source_disease_convergence :
    (tracker_map_row trackerRow5).disease_slug = some (str "measles") ∧
    (nndss_unified_row measlesNNDSSRow
      (some (toOrdinal 2022 1 9, toOrdinal 2022 1 15))).disease_slug =
        some (str "measles") ∧
    (nndss_unified_row measlesNNDSSRow
      (some (toOrdinal 2022 1 9, toOrdinal 2022 1 15))).disease_subtype = none ∧
    (nndss_unified_row meningBNNDSSRow
      (some (toOrdinal 2022 1 9, toOrdinal 2022 1 15))).disease_slug =
        some (str "meningococcus") ∧
    (nndss_unified_row meningBNNDSSRow
      (some (toOrdinal 2022 1 9, toOrdinal 2022 1 15))).disease_subtype =
        some (str "B") ∧
    (nndss_unified_row meningAllNNDSSRow
      (some (toOrdinal 2022 1 9, toOrdinal 2022 1 15))).disease_subtype = none := by
  decide

/-- C6 (counterexample): a week number outside 1–53 does not yield a
null/missing period and the row is not dropped: `(2022, 54)` converts
to the concrete range January 15 – January 21, 2023, extrapolated past
the end of the MMWR year. -/
theorem parse_year_week_counterexample :
    parse_year_week (some 2022) (some 54) =
      .ok (some (toOrdinal 2023 1 15, toOrdinal 2023 1 21)) ∧
    parse_year_week (some 2022) (some 54) ≠ .ok none := by decide

/-- C6 (amended): during `_parse_dates`, a missing year or week and a
year outside `datetime`'s 1–9999 range never raise and yield a null
period (so such rows carry no usable period); but an integer week
outside 1–53 is not rejected — it yields a non-null period extrapolated
week-by-week from week 1, as at `(2022, 54)`. -/
theorem parse_year_week_amended :
    (∀ w, parse_year_week none w = .ok none) ∧
    (∀ y, parse_year_week (some y) none = .ok none) ∧
    (∀ y w : Int, y < 1 ∨ 9999 < y → parse_year_week (some y) (some w) = .ok none) ∧
    parse_year_week (some 2022) (some 54) =
      .ok (some (toOrdinal 2023 1 15, toOrdinal 2023 1 21)) := by
  refine ⟨fun w => rfl, fun y => rfl, ?_, by decide⟩
  intro y w h
  have hy : ¬(1 ≤ y ∧ y ≤ 9999) := by omega
  simp [parse_year_week, hy]

/-- C6 (witness): the amended out-of-range-year clause at a concrete
input. -/
theorem parse_year_week_amended_witness :
    parse_year_week (some 0) (some 1) = .ok none :=
  parse_year_week_amended.2.2.1 0 1 (Or.inl (by decide))

/-- C9 (confirmed): for every year in `datetime`'s domain and week 1–52,
the MMWR week is 6 days long end-to-start, consecutive week starts are
7 days apart, the start is always a Sunday (`weekday() = 6`) and the
end always a Saturday (`weekday() = 5`). -/
theorem mmwr_week_arithmetic (y w : Int) (hy1 : 1 ≤ y) (hy2 : y ≤ 9999)
    (hw1 : 1 ≤ w) (hw2 : w ≤ 52) :
    get_mmwr_week_end y w - get_mmwr_week_start y w = 6 ∧
    get_mmwr_week_start y (w + 1) - get_mmwr_week_start y w = 7 ∧
    pyWeekday (get_mmwr_week_start y w) = 6 ∧
    pyWeekday (get_mmwr_week_end y w) = 5 := by
  unfold get_mmwr_week_end get_mmwr_week_start mmwr_week1_start pyWeekday
  generalize janOrd y = a
  by_cases h : (a + 6) % 7 ≤ 3
  · simp only [if_pos h]
    omega
  · simp only [if_neg h]
    omega

/-- C9 (witness): the invariants at year 2024, week 5. -/
theorem mmwr_week_arithmetic_witness :
    get_mmwr_week_end 2024 5 - get_mmwr_week_start 2024 5 = 6 ∧
    get_mmwr_week_start 2024 6 - get_mmwr_week_start 2024 5 = 7 ∧
    pyWeekday (get_mmwr_week_start 2024 5) = 6 ∧
    pyWeekday (get_mmwr_week_end 2024 5) = 5 :=
  mmwr_week_arithmetic 2024 5 (by decide) (by decide) (by decide) (by decide)

/-- Helper: inverting a successful `mapM` over `Except` — every element
of the result comes from applying `f` to some input row. -/
theorem mem_of_mapM_ok {α β : Type} (f : α → Except Unit β) :
    ∀ (rows : List α) (us : List β), rows.mapM f = .ok us →
      ∀ u ∈ us, ∃ r ∈ rows, f r = .ok u := by
  intro rows
  induction rows with
  | nil =>
    intro us h u hu
    rw [List.mapM_nil] at h
    cases h
    cases hu
  | cons r rs ih =>
    intro us h u hu
    rw [List.mapM_cons] at h
    cases hfr : f r with
    | error e => rw [hfr] at h; simp [Bind.bind, Except.bind] at h
    | ok b =>
      rw [hfr] at h
      simp only [Bind.bind, Except.bind] at h
      cases hrs : rs.mapM f with
      | error e => rw [hrs] at h; simp [Except.bind] at h
      | ok bs =>
        rw [hrs] at h
        simp only [Except.bind] at h
        have hus : b :: bs = us := by cases h; rfl
        rw [← hus] at hu
        rcases List.mem_cons.1 hu with h1 | h2
        · exact ⟨r, List.mem_cons_self r rs, h1 ▸ hfr⟩
        · obtain ⟨r', hr', hfr'⟩ := ih bs hrs u h2
          exact ⟨r', List.mem_cons_of_mem r hr', hfr'⟩

/-- C4 (confirmed): every row of a successful
`NNDSSTransformer.transform()` has `geo_unit = "state"` — regional and
national rows do not survive the post-transform filter. -/
theorem nndss_transform_state_only (rows : List NNDSSRow) (out : List UnifiedRow)
    (h : nndss_transform rows = .ok out) :
    ∀ u ∈ out, u.geo_unit = some (str "state") := by
  intro u hu
  unfold nndss_transform at h
  cases hm : rows.mapM nndss_transform_row with
  | error e => rw [hm] at h; simp [Bind.bind, Except.bind] at h
  | ok us =>
    rw [hm] at h
    simp only [Bind.bind, Except.bind] at h
    have hout : (us.filter (fun u => u.count.isSome)).filter
        (fun u => u.geo_unit == some (str "state")) = out := by
      cases h; rfl
    rw [← hout] at hu
    exact eq_of_beq ((List.mem_filter.1 hu).2)

/-- C4 (witness): the state-only property on the fixture transform (one
Massachusetts row and one national `US RESIDENTS` row in, only the
state row out). -/
theorem nndss_transform_state_only_witness :
    (nndss_unified_row measlesNNDSSRow
      (some (toOrdinal 2022 1 9, toOrdinal 2022 1 15))).geo_unit = some (str "state") :=
  nndss_transform_state_only nndssFixtureRows nndssFixtureOut (by decide)
    (nndss_unified_row measlesNNDSSRow
      (some (toOrdinal 2022 1 9, toOrdinal 2022 1 15))) (by decide)

/-- C10 (confirmed): for a non-empty transformer result, every row of a
successful pipeline `load()` has its `disease_slug` regenerated from
the (alias-replaced) `disease_name` by `app/utils.py::to_disease_slug`,
overwriting whatever the transformer set; and `to_disease_slug` really
is a different function from the normalizers' `slugify` (they disagree
at `"a.b"`). -/
theorem load_regenerates_disease_slug (src : Str) (transformed out : List UnifiedRow)
    (hne : transformed ≠ []) (h : load src transformed = .ok out) :
    (∀ u ∈ out, u.disease_slug = u.disease_name.map to_disease_slug) ∧
    slugify (some (str "a.b")) ≠ some (to_disease_slug (str "a.b")) := by
  constructor
  · intro u hu
    simp only [load, if_neg hne] at h
    split at h
    · have hout : transformed.map
          (fun u => tag_data_source_row src (generate_slugs_row (apply_disease_aliases_row u)))
            = out := by cases h; rfl
      rw [← hout] at hu
      obtain ⟨v, _, rfl⟩ := List.mem_map.1 hu
      simp [tag_data_source_row, generate_slugs_row]
    · cases h
  · decide

/-- C10 (witness): the regenerated-slug property on the loaded tracker
fixture row. -/
theorem load_regenerates_disease_slug_witness :
    trackerLoadedRow.disease_slug = trackerLoadedRow.disease_name.map to_disease_slug ∧
    slugify (some (str "a.b")) ≠ some (to_disease_slug (str "a.b")) :=
  ⟨(load_regenerates_disease_slug (str "tracker")
      [tracker_map_row (normalize_columns trackerRow5)] [trackerLoadedRow]
      (by decide) (by decide)).1 trackerLoadedRow (by decide),
   (load_regenerates_disease_slug (str "tracker")
      [tracker_map_row (normalize_columns trackerRow5)] [trackerLoadedRow]
      (by decide) (by decide)).2⟩

/-- C3 (counterexample): a tracker source row with a missing count is not
dropped — `count` is a nullable schema column and the tracker pipeline
passes it through unchanged — so the pipeline-wrapped `load()` stores
the row with a null `count` in the canonical table. -/
theorem tracker_null_count_survives_load :
    load (str "tracker") (tracker_transform [(trackerFileA, [nullCountTrackerRow])]) =
      .ok [nullCountLoadedRow] ∧
    nullCountLoadedRow.count = none := by decide

/-- Helper: a parsed NNDSS count is a non-negative integer (it is read
from a digits-only string). -/
theorem clean_count_nonneg (cw : Option Str) :
    ∀ n : Int, clean_count cw = some n → 0 ≤ n := by
  intro n h
  cases cw with
  | none => cases h
  | some s0 =>
    simp only [clean_count] at h
    split at h
    · simp at h
    · split at h
      · cases h
      · cases h
        exact Int.ofNat_nonneg _

/-- C3 (amended): the NNDSS transformer drops rows with unparseable or
missing counts and its surviving counts are non-null, non-negative
integers; the tracker transformer, by contrast, passes `count` through
unchanged (no dropping, no sign or nullness check), and the schema
permits null counts. -/
theorem count_policy_amended :
    (∀ (rows : List NNDSSRow) (out : List UnifiedRow),
        nndss_transform rows = .ok out →
        ∀ u ∈ out, ∃ n : Int, u.count = some n ∧ 0 ≤ n) ∧
    (∀ r : TrackerRow, (tracker_map_row r).count = r.count) := by
  constructor
  · intro rows out h u hu
    unfold nndss_transform at h
    cases hm : rows.mapM nndss_transform_row with
    | error e => rw [hm] at h; simp [Bind.bind, Except.bind] at h
    | ok us =>
      rw [hm] at h
      simp only [Bind.bind, Except.bind] at h
      have hout : (us.filter (fun u => u.count.isSome)).filter
          (fun u => u.geo_unit == some (str "state")) = out := by
        cases h; rfl
      rw [← hout] at hu
      have hu1 := List.mem_of_mem_filter hu
      have hcount : u.count.isSome = true := (List.mem_filter.1 hu1).2
      have hu2 := List.mem_of_mem_filter hu1
      obtain ⟨r, _, hr⟩ := mem_of_mapM_ok nndss_transform_row rows us hm u hu2
      unfold nndss_transform_row at hr
      cases hp : parse_year_week r.mmwrYear r.mmwrWeek with
      | error e => rw [hp] at hr; simp [Except.map] at hr
      | ok p =>
        rw [hp] at hr
        simp only [Except.map] at hr
        have hu' : nndss_unified_row r p = u := by cases hr; rfl
        have hc : u.count = clean_count r.currentWeek := by rw [← hu']; rfl
        rw [hc] at hcount
        obtain ⟨n, hn⟩ := Option.isSome_iff_exists.1 hcount
        exact ⟨n, hc.trans hn, clean_count_nonneg r.currentWeek n hn⟩
  · intro r
    rfl

/-- C3 (witness): the amended count policy at the fixtures — the NNDSS
fixture output has non-negative non-null counts; the tracker mapping
leaves the null count untouched. -/
theorem count_policy_amended_witness :
    (nndss_unified_row measlesNNDSSRow
      (some (toOrdinal 2022 1 9, toOrdinal 2022 1 15))).count ≠ none ∧
    (tracker_map_row nullCountTrackerRow).count = nullCountTrackerRow.count := by
  constructor
  · obtain ⟨n, hn, -⟩ := count_policy_amended.1 nndssFixtureRows nndssFixtureOut
      (by decide)
      (nndss_unified_row measlesNNDSSRow
        (some (toOrdinal 2022 1 9, toOrdinal 2022 1 15))) (by decide)
    rw [hn]
    exact Option.some_ne_none n
  · exact count_policy_amended.2 nullCountTrackerRow

/-- Helper: `listLt` is irreflexive. -/
theorem listLt_irrefl (a : Str) : listLt a a = false := by
  induction a with
  | nil => rfl
  | cons c t ih => simp [listLt, ih]

/-- Helper: `listLt` is transitive. -/
theorem listLt_trans : ∀ a b c : Str,
    listLt a b = true → listLt b c = true → listLt a c = true := by
  intro a
  induction a with
  | nil =>
    intro b c hab hbc
    cases b with
    | nil => simp [listLt] at hab
    | cons y ys =>
      cases c with
      | nil => simp [listLt] at hbc
      | cons z zs => simp [listLt]
  | cons x xs ih =>
    intro b c hab hbc
    cases b with
    | nil => simp [listLt] at hab
    | cons y ys =>
      cases c with
      | nil => simp [listLt] at hbc
      | cons z zs =>
        simp only [listLt] at hab hbc ⊢
        split at hab
        · rename_i h1
          split at hbc
          · rename_i h2
            simp [Nat.lt_trans h1 h2]
          · split at hbc
            · cases hbc
            · rename_i h2 h3
              have hyz : y = z := by omega
              subst hyz
              simp [h1]
        · split at hab
          · cases hab
          · rename_i h1 h3
            have hxy : x = y := by omega
            subst hxy
            split at hbc
            · rename_i h2
              simp [h2]
            · split at hbc
              · cases hbc
              · rename_i h2 h4
                have hxz : x = z := by omega
                subst hxz
                simp only [Nat.lt_irrefl, if_false]
                exact ih ys zs hab hbc

/-- Helper: `listLt` is connex — mutually incomparable lists are equal. -/
theorem listLt_connex : ∀ a b : Str,
    listLt a b = false → listLt b a = false → a = b := by
  intro a
  induction a with
  | nil =>
    intro b h1 h2
    cases b with
    | nil => rfl
    | cons y ys => simp [listLt] at h1
  | cons x xs ih =>
    intro b h1 h2
    cases b with
    | nil => simp [listLt] at h2
    | cons y ys =>
      simp only [listLt] at h1 h2
      split at h1
      · cases h1
      · split at h1
        · rename_i hxy hyx
          simp [hyx] at h2
        · rename_i hxy hyx
          have : x = y := by omega
          subst this
          simp only [Nat.lt_irrefl, if_false] at h2
          rw [ih ys h1 h2]

/-- Helper: the fold inside `latest_for_state` returns an element of the
candidate list whose basename no other candidate's basename
lexicographically exceeds (Python's stable descending sort keeps the
first element among maximal keys, which is what the fold computes). -/
theorem latest_fold_spec (t : List Str) : ∀ h : Str,
    (t.foldl (fun best f => if listLt (basenameOf best) (basenameOf f) then f else best) h)
      ∈ h :: t ∧
    ∀ g ∈ h :: t,
      listLt
        (basenameOf
          (t.foldl (fun best f => if listLt (basenameOf best) (basenameOf f) then f else best) h))
        (basenameOf g) = false := by
  induction t with
  | nil =>
    intro h
    refine ⟨by simp, ?_⟩
    intro g hg
    simp only [List.mem_cons, List.not_mem_nil, or_false] at hg
    subst hg
    exact listLt_irrefl _
  | cons f t ih =>
    intro h
    simp only [List.foldl_cons]
    by_cases hlt : listLt (basenameOf h) (basenameOf f) = true
    · rw [if_pos hlt]
      obtain ⟨hmem, hmax⟩ := ih f
      refine ⟨List.mem_cons_of_mem h hmem, ?_⟩
      intro g hg
      rcases List.mem_cons.1 hg with rfl | hg'
      · by_cases hcon :
          listLt
            (basenameOf
              (t.foldl (fun best f => if listLt (basenameOf best) (basenameOf f) then f else best) f))
            (basenameOf g) = true
        · have := listLt_trans _ _ _ hcon hlt
          rw [hmax f (List.mem_cons_self f t)] at this
          cases this
        · simpa using hcon
      · exact hmax g hg'
    · rw [if_neg hlt]
      simp only [Bool.not_eq_true] at hlt
      obtain ⟨hmem, hmax⟩ := ih h
      refine ⟨?_, ?_⟩
      · rcases List.mem_cons.1 hmem with h1 | h1
        · rw [h1]; exact List.mem_cons_self _ _
        · exact List.mem_cons_of_mem h (List.mem_cons_of_mem f h1)
      · intro g hg
        rcases List.mem_cons.1 hg with rfl | hg'
        · exact hmax g (List.mem_cons_self g t)
        · rcases List.mem_cons.1 hg' with rfl | hg''
          · by_cases hcon :
              listLt
                (basenameOf
                  (t.foldl
                    (fun best f => if listLt (basenameOf best) (basenameOf f) then f else best) h))
                (basenameOf g) = true
            · exfalso
              have hrh := hmax h (List.mem_cons_self h t)
              by_cases hhr :
                listLt (basenameOf h)
                  (basenameOf
                    (t.foldl
                      (fun best f => if listLt (basenameOf best) (basenameOf f) then f else best)
                      h)) = true
              · have := listLt_trans _ _ _ hhr hcon
                rw [hlt] at this
                cases this
              · simp only [Bool.not_eq_true] at hhr
                have heq := listLt_connex _ _ hrh hhr
                rw [heq, hlt] at hcon
                cases hcon
            · simpa using hcon
          · exact hmax g (List.mem_cons_of_mem h hg'')

/-- C7 (confirmed): `_select_latest_per_state` only ever selects a file
from the input whose filename (the last path component) is
lexicographically maximal among the files sharing its state directory
key; and concretely, with two `ID` files differing only in timestamp
prefix and count, `transform()` emits exactly the row of the
lexicographically later filename (count 10, not 5). -/
theorem select_latest_per_state_spec :
    (∀ (files : List Str) (f : Str), f ∈ select_latest_per_state files →
      f ∈ files ∧ ∀ g ∈ files, stateKeyOf g = stateKeyOf f →
        listLt (basenameOf f) (basenameOf g) = false) ∧
    tracker_transform [(trackerFileA, [trackerRow5]), (trackerFileB, [trackerRow10])] =
      [tracker_map_row (normalize_columns trackerRow10)] := by
  constructor
  · intro files f hf
    unfold select_latest_per_state at hf
    obtain ⟨s, _, hlat⟩ := List.mem_filterMap.1 hf
    unfold latest_for_state at hlat
    cases hfl : files.filter (fun g => stateKeyOf g == some s) with
    | nil => rw [hfl] at hlat; cases hlat
    | cons h t =>
      rw [hfl] at hlat
      injection hlat with hlat
      obtain ⟨hmem, hmax⟩ := latest_fold_spec t h
      rw [hlat] at hmem hmax
      have hmemfil : f ∈ files.filter (fun g => stateKeyOf g == some s) := by
        rw [hfl]; exact hmem
      have hkey : stateKeyOf f = some s :=
        eq_of_beq ((List.mem_filter.1 hmemfil).2)
      refine ⟨List.mem_of_mem_filter hmemfil, ?_⟩
      intro g hg hgkey
      have hgfil : g ∈ files.filter (fun g => stateKeyOf g == some s) :=
        List.mem_filter.2 ⟨hg, beq_iff_eq.2 (hgkey.trans hkey)⟩
      rw [hfl] at hgfil
      exact hmax g hgfil
  · decide

/-- C7 (witness): the maximality property at the two concrete `ID`
snapshot files — the selected later file's basename is not exceeded. -/
theorem select_latest_per_state_spec_witness :
    trackerFileB ∈ [trackerFileA, trackerFileB] ∧
    listLt (basenameOf trackerFileB) (basenameOf trackerFileA) = false := by
  obtain ⟨hmem, hmax⟩ := select_latest_per_state_spec.1 [trackerFileA, trackerFileB]
    trackerFileB (by decide)
  exact ⟨hmem, hmax trackerFileA (by decide) (by decide)⟩

/-- Helper: lowercasing never produces an ASCII uppercase letter. -/
theorem toLowerC_not_upper (c : Nat) : isUpperC (toLowerC c) = false := by
  simp only [toLowerC, isUpperC]
  split <;> simp <;> omega

/-- Helper: slug characters are fixed by lowercasing. -/
theorem toLowerC_eq_self_of_good (c : Nat) (h : goodSlugChar c = true) :
    toLowerC c = c := by
  simp only [goodSlugChar, isLowerC, isDigitC, Bool.or_eq_true, decide_eq_true_eq,
    beq_iff_eq] at h
  simp only [toLowerC]
  split <;> omega

/-- Helper: slug characters are not whitespace. -/
theorem goodSlugChar_not_space (c : Nat) (h : goodSlugChar c = true) :
    isPySpace c = false := by
  simp only [goodSlugChar, isLowerC, isDigitC, Bool.or_eq_true, decide_eq_true_eq,
    beq_iff_eq] at h
  simp only [isPySpace, Bool.or_eq_false_iff, beq_eq_false_iff_ne]
  omega

/-- Helper: slug characters are not uppercase. -/
theorem goodSlugChar_not_upper (c : Nat) (h : goodSlugChar c = true) :
    isUpperC c = false := by
  simp only [goodSlugChar, isLowerC, isDigitC, Bool.or_eq_true, decide_eq_true_eq,
    beq_iff_eq] at h
  simp only [isUpperC, decide_eq_false_iff_not]
  omega

/-- Helper: slug characters survive the `[^\w\s-]` filter. -/
theorem goodSlugChar_keep (c : Nat) (h : goodSlugChar c = true) :
    (isWordChar c || isPySpace c || c == 45) = true := by
  simp only [goodSlugChar, isLowerC, isDigitC, Bool.or_eq_true, decide_eq_true_eq,
    beq_iff_eq] at h
  simp only [isWordChar, isUpperC, isLowerC, isDigitC, Bool.or_eq_true,
    decide_eq_true_eq, beq_iff_eq]
  omega

/-- Helper: slug characters match neither `\s` nor `_`. -/
theorem goodSlugChar_not_su (c : Nat) (h : goodSlugChar c = true) :
    (isPySpace c || c == 95) = false := by
  simp only [goodSlugChar, isLowerC, isDigitC, Bool.or_eq_true, decide_eq_true_eq,
    beq_iff_eq] at h
  simp only [isPySpace, Bool.or_eq_false_iff, beq_eq_false_iff_ne]
  omega

/-- Helper: characters of a collapsed list are the replacement character
or non-`p` characters of the input. -/
theorem mem_collapseRunsAux (p : Nat → Bool) (rep : Nat) :
    ∀ (l : Str) (b : Bool) (c : Nat), c ∈ collapseRunsAux p rep b l →
      c = rep ∨ (c ∈ l ∧ p c = false) := by
  intro l
  induction l with
  | nil => intro b c hc; cases hc
  | cons a t ih =>
    intro b c hc
    simp only [collapseRunsAux] at hc
    by_cases hp : p a = true
    · rw [if_pos hp] at hc
      cases b with
      | true =>
        rcases ih true c hc with h | ⟨h1, h2⟩
        · exact Or.inl h
        · exact Or.inr ⟨List.mem_cons_of_mem a h1, h2⟩
      | false =>
        rcases List.mem_cons.1 hc with rfl | hc'
        · exact Or.inl rfl
        · rcases ih true c hc' with h | ⟨h1, h2⟩
          · exact Or.inl h
          · exact Or.inr ⟨List.mem_cons_of_mem a h1, h2⟩
    · rw [if_neg hp] at hc
      rcases List.mem_cons.1 hc with rfl | hc'
      · exact Or.inr ⟨List.mem_cons_self _ _, Bool.not_eq_true _ ▸ hp⟩
      · rcases ih false c hc' with h | ⟨h1, h2⟩
        · exact Or.inl h
        · exact Or.inr ⟨List.mem_cons_of_mem a h1, h2⟩

/-- Helper: collapsing is the identity when no character matches `p`. -/
theorem collapseRunsAux_id (p : Nat → Bool) (rep : Nat) :
    ∀ (l : Str) (b : Bool), (∀ c ∈ l, p c = false) → collapseRunsAux p rep b l = l := by
  intro l
  induction l with
  | nil => intro b _; rfl
  | cons a t ih =>
    intro b h
    have ha : p a = false := h a (List.mem_cons_self _ _)
    simp only [collapseRunsAux, ha, Bool.false_eq_true, if_false]
    rw [ih false (fun c hc => h c (List.mem_cons_of_mem a hc))]

/-- Helper: collapsing hyphen runs yields no repeated hyphens, and in a
run (`inRun = true`) the output never begins with a hyphen. -/
theorem collapseHyAux_chain :
    ∀ l : Str,
      NoHH (collapseRunsAux (· == 45) 45 false l) ∧
      NoHH (collapseRunsAux (· == 45) 45 true l) ∧
      (collapseRunsAux (· == 45) 45 true l).head? ≠ some 45 := by
  intro l
  induction l with
  | nil => exact ⟨List.chain'_nil, List.chain'_nil, by simp [collapseRunsAux]⟩
  | cons a t ih =>
    obtain ⟨ihf, iht, ihh⟩ := ih
    by_cases ha : a = 45
    · subst ha
      have hcond : ((45 : Nat) == 45) = true := by decide
      refine ⟨?_, ?_, ?_⟩
      · simp only [collapseRunsAux, hcond, if_true]
        exact List.chain'_cons'.2 ⟨fun y hy => by
          intro hc
          apply ihh
          rw [hy]
          exact congrArg some hc.2.symm ▸ rfl, iht⟩
      · simp only [collapseRunsAux, hcond, if_true]
        exact iht
      · simp only [collapseRunsAux, hcond, if_true]
        exact ihh
    · have hcond : ((a : Nat) == 45) = false := by simp [ha]
      refine ⟨?_, ?_, ?_⟩
      · simp only [collapseRunsAux, hcond, Bool.false_eq_true, if_false]
        exact List.chain'_cons'.2 ⟨fun y _ => fun hc => ha hc.1, ihf⟩
      · simp only [collapseRunsAux, hcond, Bool.false_eq_true, if_false]
        exact List.chain'_cons'.2 ⟨fun y _ => fun hc => ha hc.1, ihf⟩
      · simp only [collapseRunsAux, hcond, Bool.false_eq_true, if_false]
        simp [ha]

/-- Helper: collapsing hyphen runs is the identity on a list with no
repeated hyphens (when additionally not starting in a run on a
hyphen). -/
theorem collapseHyAux_id :
    ∀ l : Str, NoHH l →
      collapseRunsAux (· == 45) 45 false l = l ∧
      (l.head? ≠ some 45 → collapseRunsAux (· == 45) 45 true l = l) := by
  intro l
  induction l with
  | nil => exact fun _ => ⟨rfl, fun _ => rfl⟩
  | cons a t ih =>
    intro hch
    have hch' : NoHH t := (List.chain'_cons'.1 hch).2
    have hhd : ∀ y ∈ t.head?, ¬(a = 45 ∧ y = 45) := (List.chain'_cons'.1 hch).1
    obtain ⟨ihf, iht⟩ := ih hch'
    by_cases ha : a = 45
    · subst ha
      have hcond : ((45 : Nat) == 45) = true := by decide
      have hthead : t.head? ≠ some 45 := by
        intro hc
        exact hhd 45 hc ⟨rfl, rfl⟩
      constructor
      · simp only [collapseRunsAux, hcond, if_true, Bool.false_eq_true, if_false]
        rw [iht hthead]
      · intro hc
        exact absurd rfl hc
    · have hcond : ((a : Nat) == 45) = false := by simp [ha]
      constructor
      · simp only [collapseRunsAux, hcond, Bool.false_eq_true, if_false]
        rw [ihf]
      · intro _
        simp only [collapseRunsAux, hcond, Bool.false_eq_true, if_false]
        rw [ihf]

/-- Helper: the head of a `dropWhile` result never satisfies `p`. -/
theorem head?_dropWhile_false (p : Nat → Bool) :
    ∀ (l : Str) (c : Nat), (l.dropWhile p).head? = some c → p c = false := by
  intro l
  induction l with
  | nil => intro c h; cases h
  | cons a t ih =>
    intro c h
    by_cases hp : p a = true
    · rw [List.dropWhile_cons, if_pos hp] at h
      exact ih c h
    · rw [List.dropWhile_cons, if_neg hp] at h
      injection h with h
      subst h
      exact Bool.not_eq_true _ ▸ hp

/-- Helper: `dropWhile` is the identity when every character fails `p`. -/
theorem dropWhile_id_of_all_false (p : Nat → Bool) (l : Str)
    (h : ∀ c ∈ l, p c = false) : l.dropWhile p = l := by
  cases l with
  | nil => rfl
  | cons a t =>
    rw [List.dropWhile_cons, if_neg]
    rw [h a (List.mem_cons_self _ _)]
    simp

/-- Helper: `str.strip()` is the identity on whitespace-free strings. -/
theorem stripWS_id (l : Str) (h : ∀ c ∈ l, isPySpace c = false) : stripWS l = l := by
  unfold stripWS
  rw [dropWhile_id_of_all_false _ _ h,
    dropWhile_id_of_all_false _ _ (fun c hc => h c (List.mem_reverse.1 hc)),
    List.reverse_reverse]

/-- Helper: `str.strip("-")` is the identity when neither end is a
hyphen. -/
theorem stripHyphens_id (l : Str) (hh : l.head? ≠ some 45) (hl : l.getLast? ≠ some 45) :
    stripHyphens l = l := by
  unfold stripHyphens
  have h1 : l.dropWhile (· == 45) = l := by
    cases l with
    | nil => rfl
    | cons a t =>
      rw [List.dropWhile_cons, if_neg]
      intro hc
      exact hh (by simpa using congrArg some (eq_of_beq hc))
  rw [h1]
  have h2 : l.reverse.dropWhile (· == 45) = l.reverse := by
    cases hr : l.reverse with
    | nil => rfl
    | cons a t =>
      rw [List.dropWhile_cons, if_neg]
      intro hc
      apply hl
      rw [← List.head?_reverse, hr]
      simp [eq_of_beq hc]
  rw [h2, List.reverse_reverse]

/-- Helper: characters of `stripHyphens l` come from `l`. -/
theorem mem_stripHyphens (l : Str) (c : Nat) (h : c ∈ stripHyphens l) : c ∈ l := by
  unfold stripHyphens at h
  have h1 := (List.dropWhile_suffix (· == 45)).sublist.mem (List.mem_reverse.1 h)
  exact (List.dropWhile_suffix (· == 45)).sublist.mem (List.mem_reverse.1 h1)

/-- Helper: `stripHyphens` preserves absence of repeated hyphens. -/
theorem noHH_stripHyphens (l : Str) (h : NoHH l) : NoHH (stripHyphens l) := by
  unfold stripHyphens
  have hsymm : ∀ m : Str, NoHH m → NoHH m.reverse := by
    intro m hm
    exact List.chain'_reverse.2 (hm.imp (fun a b hab => fun hc => hab ⟨hc.2, hc.1⟩))
  exact hsymm _ ((hsymm _ (h.suffix (List.dropWhile_suffix _))).suffix
    (List.dropWhile_suffix _))

/-- Helper: after `stripHyphens` neither end is a hyphen. -/
theorem stripHyphens_ends (l : Str) :
    (stripHyphens l).head? ≠ some 45 ∧ (stripHyphens l).getLast? ≠ some 45 := by
  constructor
  · unfold stripHyphens
    rw [List.head?_reverse]
    intro hc
    cases hX : (l.dropWhile (· == 45)).reverse.dropWhile (· == 45) with
    | nil => rw [hX] at hc; cases hc
    | cons a t =>
      have hXne : (l.dropWhile (· == 45)).reverse.dropWhile (· == 45) ≠ [] := by
        rw [hX]; exact List.cons_ne_nil a t
      have hsplit := List.takeWhile_append_dropWhile (· == 45)
        (l.dropWhile (· == 45)).reverse
      have hlast : ((l.dropWhile (· == 45)).reverse.dropWhile (· == 45)).getLast? =
          (l.dropWhile (· == 45)).reverse.getLast? := by
        conv_rhs => rw [← hsplit]
        rw [List.getLast?_append_of_ne_nil _ hXne]
      rw [hlast, List.getLast?_reverse] at hc
      have := head?_dropWhile_false (· == 45) l 45 hc
      simp at this
  · unfold stripHyphens
    rw [List.getLast?_reverse]
    intro hc
    have := head?_dropWhile_false (· == 45) (l.dropWhile (· == 45)).reverse 45 hc
    simp at this

/-- Helper: characters of `stripWS l` come from `l`. -/
theorem mem_stripWS (l : Str) (c : Nat) (h : c ∈ stripWS l) : c ∈ l := by
  unfold stripWS at h
  have h1 := (List.dropWhile_suffix isPySpace).sublist.mem (List.mem_reverse.1 h)
  exact (List.dropWhile_suffix isPySpace).sublist.mem (List.mem_reverse.1 h1)

/-- Helper: mapping a pointwise-identity function is the identity. -/
theorem map_id_of (f : Nat → Nat) :
    ∀ l : Str, (∀ c ∈ l, f c = c) → l.map f = l := by
  intro l
  induction l with
  | nil => intro _; rfl
  | cons a t ih =>
    intro h
    rw [List.map_cons, h a (List.mem_cons_self _ _),
      ih (fun c hc => h c (List.mem_cons_of_mem a hc))]

/-- Helper: whitespace is untouched by lowercasing. -/
theorem toLowerC_space_id (c : Nat) (h : isPySpace c = true) : toLowerC c = c := by
  simp only [isPySpace, Bool.or_eq_true, beq_iff_eq] at h
  simp only [toLowerC]
  split <;> omega

/-- Helper: a kept, non-space, non-underscore, non-uppercase character is
a slug character. -/
theorem goodSlugChar_of (c : Nat) (hk : (isWordChar c || isPySpace c || c == 45) = true)
    (hs : (isPySpace c || c == 95) = false) (hu : isUpperC c = false) :
    goodSlugChar c = true := by
  simp only [isWordChar, isPySpace, isUpperC, isLowerC, isDigitC, goodSlugChar,
    Bool.or_eq_true, Bool.or_eq_false_iff, decide_eq_true_eq, decide_eq_false_iff_not,
    beq_iff_eq, beq_eq_false_iff_ne] at *
  omega

/-- Helper: every successful `slugify` output is made of slug characters,
has no repeated hyphens, no hyphen at either end, and is non-empty. -/
theorem slugifyChars_shape (l r : Str) (h : slugifyChars l = some r) :
    (∀ c ∈ r, goodSlugChar c = true) ∧
    NoHH r ∧ r.head? ≠ some 45 ∧ r.getLast? ≠ some 45 ∧ r ≠ [] := by
  simp only [slugifyChars] at h
  split at h
  · cases h
  · rename_i hne
    injection h with h
    subst h
    refine ⟨?_, ?_, (stripHyphens_ends _).1, (stripHyphens_ends _).2, hne⟩
    · intro c hc
      have hc4 := mem_stripHyphens _ _ hc
      rcases mem_collapseRunsAux _ _ _ _ _ hc4 with rfl | ⟨hc3, _⟩
      · decide
      · rcases mem_collapseRunsAux _ _ _ _ _ hc3 with rfl | ⟨hc2, hsu⟩
        · decide
        · have hk := List.mem_filter.1 hc2
          have hc1 := mem_stripWS _ _ hk.1
          obtain ⟨d, _, rfl⟩ := List.mem_map.1 hc1
          exact goodSlugChar_of _ hk.2 hsu (toLowerC_not_upper d)
    · exact noHH_stripHyphens _ (collapseHyAux_chain _).1

/-- Helper: `slugify` is the identity on any non-empty string that
already has slug shape. -/
theorem slugifyChars_fixed (r : Str) (hg : ∀ c ∈ r, goodSlugChar c = true)
    (hch : NoHH r) (hh : r.head? ≠ some 45) (hl : r.getLast? ≠ some 45)
    (hne : r ≠ []) : slugifyChars r = some r := by
  have h1 : lowerL r = r :=
    map_id_of _ r (fun c hc => toLowerC_eq_self_of_good c (hg c hc))
  have h2 : stripWS r = r :=
    stripWS_id r (fun c hc => goodSlugChar_not_space c (hg c hc))
  have h3 : r.filter (fun c => isWordChar c || isPySpace c || c == 45) = r :=
    List.filter_eq_self.2 (fun c hc => goodSlugChar_keep c (hg c hc))
  have h4 : collapseRuns (fun c => isPySpace c || c == 95) 45 r = r :=
    collapseRunsAux_id _ _ r false (fun c hc => goodSlugChar_not_su c (hg c hc))
  have h5 : collapseRuns (· == 45) 45 r = r := (collapseHyAux_id r hch).1
  have h6 : stripHyphens r = r := stripHyphens_id r hh hl
  simp only [slugifyChars, h1, h2, h3, h4, h5, h6]
  rw [if_neg hne]

/-- C8 (confirmed): `slugify` is idempotent; every non-null result
contains no uppercase letters and no whitespace, starts and ends with a
non-hyphen, and has no repeated hyphens; and null, empty, or
whitespace-only input returns null. -/
theorem slugify_idempotent_and_shape :
    (∀ s : Option Str, slugify (slugify s) = slugify s) ∧
    (∀ (s : Option Str) (r : Str), slugify s = some r →
      (∀ c ∈ r, isUpperC c = false ∧ isPySpace c = false) ∧
      r.head? ≠ some 45 ∧ r.getLast? ≠ some 45 ∧ NoHH r) ∧
    slugify none = none ∧
    (∀ l : Str, (∀ c ∈ l, isPySpace c = true) → slugify (some l) = none) := by
  refine ⟨?_, ?_, rfl, ?_⟩
  · intro s
    cases s with
    | none => rfl
    | some l =>
      show slugify (slugifyChars l) = slugifyChars l
      cases h : slugifyChars l with
      | none => rfl
      | some r =>
        obtain ⟨hg, hch, hh, hl, hne⟩ := slugifyChars_shape l r h
        show slugifyChars r = some r
        exact slugifyChars_fixed r hg hch hh hl hne
  · intro s r h
    cases s with
    | none => cases h
    | some l =>
      obtain ⟨hg, hch, hh, hl, _⟩ := slugifyChars_shape l r h
      exact ⟨fun c hc => ⟨goodSlugChar_not_upper c (hg c hc),
        goodSlugChar_not_space c (hg c hc)⟩, hh, hl, hch⟩
  · intro l h
    show slugifyChars l = none
    have h1 : (lowerL l).dropWhile isPySpace = [] := by
      rw [List.dropWhile_eq_nil_iff]
      intro c hc
      obtain ⟨d, hd, rfl⟩ := List.mem_map.1 hc
      rw [toLowerC_space_id d (h d hd)]
      exact h d hd
    have h2 : stripWS (lowerL l) = [] := by
      unfold stripWS
      rw [h1]
      rfl
    simp [slugifyChars, h2, collapseRuns, collapseRunsAux, stripHyphens]

/-- C8 (witness): idempotence and the whitespace-only clause at concrete
inputs. -/
theorem slugify_idempotent_witness :
    slugify (slugify (some (str "  Disease  Name_x "))) =
      slugify (some (str "  Disease  Name_x ")) ∧
    slugify (some (str "   ")) = none :=
  ⟨slugify_idempotent_and_shape.1 (some (str "  Disease  Name_x ")),
   slugify_idempotent_and_shape.2.2.2 (str "   ") (by decide)⟩
